import Mathlib

/-!
Verification of `src/coaster_blas/sidebar-items.js` from spearow/leaf.

The file is a one-line JavaScript program:

  initSidebarItems({"macro":[["iblas_asum_for_cuda","asum with cuda"], ...],
                    "mod":[["binary","Provides ..."], ...]});

We embed the JavaScript fragment shallowly: `JSValue` is the space of
string / array / object values occurring in the file, `Expr` the literal
and variable expressions, `Stmt` the statement forms, and evaluation is
explicit and fallible (`Except`).  The object literal passed to
`initSidebarItems` is transcribed as `sidebarItems`.
-/

/-- JavaScript values appearing in the sidebar file: strings, arrays and
objects (ordered key/value field lists). -/
inductive JSValue where
  | str : String → JSValue
  | arr : List JSValue → JSValue
  | obj : List (String × JSValue) → JSValue

/-- JavaScript expressions of the fragment: string literals, array
literals, object literals, and variable references (which can fail to
resolve at evaluation time). -/
inductive Expr where
  | strLit : String → Expr
  | arrLit : List Expr → Expr
  | objLit : List (String × Expr) → Expr
  | var : String → Expr

mutual

/-- Evaluate an expression in an environment.  Literals evaluate
structurally; a variable that is not bound in the environment is a
runtime error. -/
def evalExpr (env : List (String × JSValue)) : Expr → Except String JSValue
  | .strLit s => .ok (.str s)
  | .arrLit es => (evalArgs env es).map .arr
  | .objLit fs => (evalFields env fs).map .obj
  | .var x =>
      match env.find? (fun kv => kv.1 == x) with
      | some kv => .ok kv.2
      | none => .error ("ReferenceError: " ++ x ++ " is not defined")

/-- Evaluate a list of expressions left to right, stopping at the first
error. -/
def evalArgs (env : List (String × JSValue)) : List Expr → Except String (List JSValue)
  | [] => .ok []
  | e :: es => do
      let v ← evalExpr env e
      let vs ← evalArgs env es
      .ok (v :: vs)

/-- Evaluate the fields of an object literal left to right, stopping at
the first error. -/
def evalFields (env : List (String × JSValue)) :
    List (String × Expr) → Except String (List (String × JSValue))
  | [] => .ok []
  | (k, e) :: fs => do
      let v ← evalExpr env e
      let vs ← evalFields env fs
      .ok ((k, v) :: vs)

end

/-- Statements of the fragment: an expression statement, or a call
statement `f(args)` whose only effect is the call itself. -/
inductive Stmt where
  | exprStmt : Expr → Stmt
  | callStmt : String → List Expr → Stmt

/-- An observable effect: a call of a named routine on evaluated
argument values. -/
structure Effect where
  fn : String
  args : List JSValue

/-- Run one statement: evaluate its expressions and report the effects
it performs. -/
def runStmt (env : List (String × JSValue)) : Stmt → Except String (List Effect)
  | .exprStmt e => (evalExpr env e).map (fun _ => [])
  | .callStmt f args => (evalArgs env args).map (fun vs => [⟨f, vs⟩])

/-- Run a file (a statement list) in order, concatenating the effect
traces. -/
def runFile (env : List (String × JSValue)) : List Stmt → Except String (List Effect)
  | [] => .ok []
  | s :: rest => do
      let efs ← runStmt env s
      let rest' ← runFile env rest
      .ok (efs ++ rest')

/-- The object literal passed to `initSidebarItems`, transcribed from
`src/coaster_blas/sidebar-items.js`. -/
def sidebarItems : JSValue :=
  .obj
    [ ("macro",
       .arr
         [ .arr [.str "iblas_asum_for_cuda", .str "asum with cuda"]
         , .arr [.str "iblas_axpy_for_cuda", .str "axpy with cuda"]
         , .arr [.str "iblas_copy_for_cuda", .str "copy for cuda"]
         , .arr [.str "iblas_dot_for_cuda", .str "dot product for cuda"]
         , .arr [.str "iblas_gbmv_for_cuda", .str "gbmv for cuda"]
         , .arr [.str "iblas_gemm_for_cuda", .str "gemm for cuda"]
         , .arr [.str "iblas_nrm2_for_cuda", .str "nrm2 for cuda"]
         , .arr [.str "iblas_scal_for_cuda", .str "scalar mul for cuda"]
         , .arr [.str "iblas_swap_for_cuda", .str "swap matrices for cuda"]
         ])
    , ("mod",
       .arr
         [ .arr [.str "binary", .str "Provides the IBlasBinary binary trait for Coaster’s Framework implementation."]
         , .arr [.str "frameworks", .str "Provides the specific Framework implementations for the Library Operations."]
         , .arr [.str "operation", .str "Provides the IOperationX operation traits for Coaster’s Framework implementation."]
         , .arr [.str "plugin", .str "Provides the IBlas library trait for Coaster implementation."]
         , .arr [.str "transpose", .str "Provides the Transpose functionality for Matrix operations."]
         ])
    ]

/-- The object literal of `src/coaster_blas/sidebar-items.js` as written
in the source: the abstract syntax of the argument expression of the
call to `initSidebarItems`. -/
def sidebarObjExpr : Expr :=
  .objLit
    [ ("macro",
       .arrLit
         [ .arrLit [.strLit "iblas_asum_for_cuda", .strLit "asum with cuda"]
         , .arrLit [.strLit "iblas_axpy_for_cuda", .strLit "axpy with cuda"]
         , .arrLit [.strLit "iblas_copy_for_cuda", .strLit "copy for cuda"]
         , .arrLit [.strLit "iblas_dot_for_cuda", .strLit "dot product for cuda"]
         , .arrLit [.strLit "iblas_gbmv_for_cuda", .strLit "gbmv for cuda"]
         , .arrLit [.strLit "iblas_gemm_for_cuda", .strLit "gemm for cuda"]
         , .arrLit [.strLit "iblas_nrm2_for_cuda", .strLit "nrm2 for cuda"]
         , .arrLit [.strLit "iblas_scal_for_cuda", .strLit "scalar mul for cuda"]
         , .arrLit [.strLit "iblas_swap_for_cuda", .strLit "swap matrices for cuda"]
         ])
    , ("mod",
       .arrLit
         [ .arrLit [.strLit "binary", .strLit "Provides the IBlasBinary binary trait for Coaster’s Framework implementation."]
         , .arrLit [.strLit "frameworks", .strLit "Provides the specific Framework implementations for the Library Operations."]
         , .arrLit [.strLit "operation", .strLit "Provides the IOperationX operation traits for Coaster’s Framework implementation."]
         , .arrLit [.strLit "plugin", .strLit "Provides the IBlas library trait for Coaster implementation."]
         , .arrLit [.strLit "transpose", .strLit "Provides the Transpose functionality for Matrix operations."]
         ])
    ]

/-- The whole file: the single statement
`initSidebarItems({...});`. -/
def sidebarFile : List Stmt :=
  [Stmt.callStmt "initSidebarItems" [sidebarObjExpr]]

/-- Look up a key in an object value (the first binding wins, as in the
generated index, whose keys are unique). -/
def objGet (k : String) : JSValue → Option JSValue
  | .obj fs =>
      match fs.find? (fun kv => kv.1 == k) with
      | some kv => some kv.2
      | none => none
  | _ => none

/-- The keys of an object value, in source order. -/
def objKeys : JSValue → List String
  | .obj fs => fs.map (fun kv => kv.1)
  | _ => []

/-- A two-element array both of whose elements are strings: the shape of
one `[name, description]` entry. -/
def isStrPair : JSValue → Bool
  | .arr [.str _, .str _] => true
  | _ => false

/-- An array value all of whose elements are string pairs: the shape of
one category list of the sidebar index. -/
def isPairArr : JSValue → Bool
  | .arr es => es.all isStrPair
  | _ => false

/-- The entry list stored under key `k` of an object (empty when the key
is absent or its value is not an array). -/
def entriesUnder (k : String) (v : JSValue) : List JSValue :=
  match objGet k v with
  | some (.arr es) => es
  | _ => []

/-- The name (first component) of a `[name, description]` entry. -/
def pairName : JSValue → Option String
  | .arr [.str n, _] => some n
  | _ => none

/-- The description (second component) of a `[name, description]`
entry. -/
def pairDesc : JSValue → Option String
  | .arr [_, .str d] => some d
  | _ => none

/-- The names of the entries under key `k`, in source order. -/
def namesUnder (k : String) (v : JSValue) : List String :=
  (entriesUnder k v).filterMap pairName

/-- The descriptions of the entries under key `k`, in source order. -/
def descsUnder (k : String) (v : JSValue) : List String :=
  (entriesUnder k v).filterMap pairDesc

/-- Non-empty text that fits on one line: at least one character and no
newline character. -/
def oneLine (s : String) : Bool :=
  !s.data.isEmpty && s.data.all (fun c => c != '\n')

/-- `strStarts p s` holds when the string `s` begins with `p`. -/
def strStarts (p s : String) : Bool :=
  s.data.take p.data.length == p.data

/-- `strEnds q s` holds when the string `s` ends with `q`. -/
def strEnds (q s : String) : Bool :=
  s.data.drop (s.data.length - q.data.length) == q.data

/-- Strict lexicographic order on character lists, comparing characters
by code point. -/
def charsLt : List Char → List Char → Bool
  | _, [] => false
  | [], _ :: _ => true
  | a :: as, b :: bs =>
      Nat.blt a.toNat b.toNat || (a == b && charsLt as bs)

/-- Strict lexicographic order on strings. -/
def strLt (a b : String) : Bool :=
  charsLt a.data b.data

/-- A string list is strictly ascending: every adjacent pair is
strictly increasing in lexicographic order (so no duplicates and no
out-of-order pair). -/
def strictAsc : List String → Bool
  | [] => true
  | [_] => true
  | a :: b :: rest => strLt a b && strictAsc (b :: rest)

/-- C1: the object passed to `initSidebarItems` contains the keys
`macro` and `mod`, and under each of these keys the value is an ordered
sequence (an array) of two-element entries in which both elements are
strings. -/
theorem sidebar_has_macro_and_mod_pair_lists :
    (∃ v, objGet "macro" sidebarItems = some v ∧ isPairArr v = true) ∧
    (∃ v, objGet "mod" sidebarItems = some v ∧ isPairArr v = true) :=
  ⟨⟨_, rfl, rfl⟩, ⟨_, rfl, rfl⟩⟩

/-- C2: the mapping is flat: the object passed to `initSidebarItems`
has exactly the keys `macro` and `mod` (no other key), and every value
under those keys is a (name, description) pair of strings with no
nested structure. -/
theorem sidebar_flat_two_categories :
    objKeys sidebarItems = ["macro", "mod"] ∧
    (entriesUnder "macro" sidebarItems ++ entriesUnder "mod" sidebarItems).all isStrPair
      = true :=
  ⟨rfl, rfl⟩

/-- C3: the listing has macro entries for the BLAS operations asum,
axpy, copy, dot and gemm (as CUDA-binding macro names), and module
entries named binary, frameworks, operation, plugin and transpose. -/
theorem sidebar_lists_blas_ops_and_mods :
    "iblas_asum_for_cuda" ∈ namesUnder "macro" sidebarItems ∧
    "iblas_axpy_for_cuda" ∈ namesUnder "macro" sidebarItems ∧
    "iblas_copy_for_cuda" ∈ namesUnder "macro" sidebarItems ∧
    "iblas_dot_for_cuda" ∈ namesUnder "macro" sidebarItems ∧
    "iblas_gemm_for_cuda" ∈ namesUnder "macro" sidebarItems ∧
    "binary" ∈ namesUnder "mod" sidebarItems ∧
    "frameworks" ∈ namesUnder "mod" sidebarItems ∧
    "operation" ∈ namesUnder "mod" sidebarItems ∧
    "plugin" ∈ namesUnder "mod" sidebarItems ∧
    "transpose" ∈ namesUnder "mod" sidebarItems := by
  decide

/-- C4: every description in the mapping is a one-line piece of text:
under `macro` and under `mod` alike, each entry's second element is a
non-empty string containing no newline character. -/
theorem sidebar_descs_one_line :
    (descsUnder "macro" sidebarItems ++ descsUnder "mod" sidebarItems).all oneLine
      = true := by
  decide

/-- C5: the file's semantics is exactly one application of
`initSidebarItems` to the constant object: in any environment, running
the file succeeds and its effect trace is the single call to
`initSidebarItems` with `sidebarItems` as sole argument — no other
computation, state change or effect. -/
theorem sidebar_file_single_call (env : List (String × JSValue)) :
    runFile env sidebarFile = .ok [⟨"initSidebarItems", [sidebarItems]⟩] :=
  rfl

/-- C6: constructing the sidebar object cannot fail: in any
environment, evaluating the object literal takes no failure branch and
returns the object itself, never an error value. -/
theorem sidebar_literal_eval_total (env : List (String × JSValue)) :
    evalExpr env sidebarObjExpr = .ok sidebarItems :=
  rfl

/-- C7: the sidebar data is deterministic: the file reads no input, so
running it in any two environments produces the identical result — the
same object, same keys, same entries, in the same order. -/
theorem sidebar_file_deterministic (env₁ env₂ : List (String × JSValue)) :
    runFile env₁ sidebarFile = runFile env₂ sidebarFile :=
  rfl

/-- Witness for C5: the semantics at the concrete empty environment. -/
theorem sidebar_file_single_call_witness :
    runFile [] sidebarFile = .ok [⟨"initSidebarItems", [sidebarItems]⟩] :=
  sidebar_file_single_call []

/-- Witness for C6: evaluating the literal in the concrete empty
environment. -/
theorem sidebar_literal_eval_total_witness :
    evalExpr [] sidebarObjExpr = .ok sidebarItems :=
  sidebar_literal_eval_total []

/-- Witness for C7: two concrete distinct environments yield the same
run of the file. -/
theorem sidebar_file_deterministic_witness :
    runFile [] sidebarFile = runFile [("x", .str "y")] sidebarFile :=
  sidebar_file_deterministic [] [("x", .str "y")]

/-- C8: within each category the entry names are in strictly ascending
lexicographic order: under `macro` and under `mod` alike, each adjacent
pair of names is strictly increasing. -/
theorem sidebar_names_sorted :
    strictAsc (namesUnder "macro" sidebarItems) = true ∧
    strictAsc (namesUnder "mod" sidebarItems) = true := by
  decide

/-- C9: every macro name follows the CUDA-binding naming pattern: each
entry name under `macro` starts with "iblas_" and ends with
"_for_cuda". -/
theorem sidebar_cuda_naming :
    (namesUnder "macro" sidebarItems).all
      (fun n => strStarts "iblas_" n && strEnds "_for_cuda" n) = true := by
  decide

/-- C10: the index has exactly 9 entries under `macro` and exactly 5
entries under `mod`, and within each category the entry names are
pairwise distinct. -/
theorem sidebar_counts_and_distinct :
    (entriesUnder "macro" sidebarItems).length = 9 ∧
    (entriesUnder "mod" sidebarItems).length = 5 ∧
    (namesUnder "macro" sidebarItems).Nodup ∧
    (namesUnder "mod" sidebarItems).Nodup := by
  decide
